import Mathlib

/- Shallow embedding of the payroll server (src/unnamed/part_000, an Express
   application backed by a single JSON document file).

   Modelling conventions:
   * Values arriving in a JSON request body are modelled by `JSValue`; a field
     that is absent from the body is `JSValue.undefined`.
   * JavaScript numbers that may be NaN are modelled by `Option ℚ`
     (`none` is NaN).  The exotic values Infinity and -0 never arise on the
     code paths the claims exercise and are not modelled.
   * Each HTTP handler becomes a total function from its inputs and the
     currently persisted document to a result (one constructor per `return`
     site of the handler) and the document that is persisted afterwards.
     A failed `writeData` leaves the persisted document unchanged.
   * String-to-number coercions (`Number`, `parseFloat`, `parseInt`) are
     modelled for plain decimal numerals, the only shapes this API meets;
     hexadecimal and exponent forms are out of scope. -/

/-- JavaScript value as it can appear in a JSON request body.  `nan` is kept
separate from `num` because NaN compares unequal to itself. -/
inductive JSValue where
  | num (q : ℚ)
  | nan
  | str (s : String)
  | boolean (b : Bool)
  | null
  | undefined
deriving DecidableEq

/-- JavaScript number that may be NaN (`none`). -/
abbrev JSNum := Option ℚ

/-- JavaScript truthiness of a `JSValue`, used by the `!field` presence
checks of both creation handlers. -/
def truthy : JSValue → Bool
  | .num q => q != 0
  | .nan => false
  | .str s => s != ""
  | .boolean b => b
  | .null => false
  | .undefined => false

/-- JavaScript strict equality `===` on `JSValue`: values of different types
are never equal, and NaN is equal to nothing, itself included. -/
def jsStrictEq : JSValue → JSValue → Bool
  | .num a, .num b => a == b
  | .str a, .str b => a == b
  | .boolean a, .boolean b => a == b
  | .null, .null => true
  | .undefined, .undefined => true
  | _, _ => false

/-- Numeric value of a list of decimal digit characters. -/
def natOfDigits (l : List Char) : ℕ :=
  l.foldl (fun a c => a * 10 + (c.toNat - 48)) 0

/-- Splits an optional leading sign off a character list; `true` means
negative. -/
def splitSign : List Char → Bool × List Char
  | '-' :: r => (true, r)
  | '+' :: r => (false, r)
  | l => (false, l)

/-- Drops spaces from both ends of a character list. -/
def trimSpaces (l : List Char) : List Char :=
  ((l.dropWhile (fun c => c = ' ')).reverse.dropWhile (fun c => c = ' ')).reverse

/-- Parses an unsigned decimal numeral `digits[.digits]`, requiring at least
one digit and no trailing junk. -/
def parseDecCore (l : List Char) : Option ℚ :=
  let ip := l.takeWhile Char.isDigit
  match l.dropWhile Char.isDigit with
  | [] => if ip.isEmpty then none else some (natOfDigits ip : ℚ)
  | '.' :: fr =>
    if fr.all Char.isDigit && !(ip.isEmpty && fr.isEmpty)
    then some ((natOfDigits ip : ℚ) + (natOfDigits fr : ℚ) / ((10 : ℚ) ^ fr.length))
    else none
  | _ => none

/-- JavaScript `Number(s)` coercion of a string, for plain decimal numerals:
whitespace is trimmed, the empty string is 0, anything else must be a
full decimal numeral; `none` is NaN. -/
def numFromString (s : String) : Option ℚ :=
  match trimSpaces s.data with
  | [] => some 0
  | l =>
    let sg := splitSign l
    match parseDecCore sg.2 with
    | none => none
    | some q => some (if sg.1 then -q else q)

/-- JavaScript `parseFloat(s)` for plain decimal numerals: parses the longest
numeric prefix, `none` (NaN) when no digits are found. -/
def parseFloatStr (s : String) : Option ℚ :=
  let l := s.data.dropWhile (fun c => c = ' ')
  let sg := splitSign l
  let ip := sg.2.takeWhile Char.isDigit
  let fr := match sg.2.dropWhile Char.isDigit with
            | '.' :: r => r.takeWhile Char.isDigit
            | _ => []
  if ip.isEmpty && fr.isEmpty then none
  else some ((if sg.1 then (-1 : ℚ) else 1) *
             ((natOfDigits ip : ℚ) + (natOfDigits fr : ℚ) / ((10 : ℚ) ^ fr.length)))

/-- JavaScript `parseInt(s)` (radix 10): leading spaces and an optional sign,
then the longest digit prefix; `none` (NaN) when no digits are found. -/
def parseIntStr (s : String) : Option ℤ :=
  let l := s.data.dropWhile (fun c => c = ' ')
  let sg := splitSign l
  let ds := sg.2.takeWhile Char.isDigit
  if ds.isEmpty then none
  else some (if sg.1 then -(natOfDigits ds : ℤ) else (natOfDigits ds : ℤ))

/-- Floor of a rational as an integer. -/
def ratFloor (q : ℚ) : ℤ := Int.fdiv q.num (q.den : ℤ)

/-- Truncation of a rational toward zero, the effect of `parseInt` on a
number whose string rendering is a plain decimal numeral. -/
def ratTrunc (q : ℚ) : ℤ := if 0 ≤ q then ratFloor q else -(ratFloor (-q))

/-- Rounding to 2 fractional digits, half away from zero upward: the value of
`parseFloat(x.toFixed(2))` for the magnitudes this API stores. -/
def round2 (q : ℚ) : ℚ := ((ratFloor (q * 100 + 1 / 2) : ℚ)) / 100

/-- JavaScript `Number(v)` coercion, the test performed by `isNaN(v)` and by
the relational comparisons against numeric literals; `none` is NaN. -/
def toNumber : JSValue → Option ℚ
  | .num q => some q
  | .nan => none
  | .str s => numFromString s
  | .boolean b => some (if b then 1 else 0)
  | .null => some 0
  | .undefined => none

/-- JavaScript `parseFloat(v)`: numbers pass through, strings are
prefix-parsed, every other value (whose string form starts with a letter)
is NaN. -/
def parseFloatJS : JSValue → JSNum
  | .num q => some q
  | .str s => parseFloatStr s
  | _ => none

/-- JavaScript `parseInt(v)`: numbers are truncated toward zero (via their
decimal rendering), strings are prefix-parsed, other values are NaN. -/
def parseIntJS : JSValue → Option ℤ
  | .num q => some (ratTrunc q)
  | .str s => parseIntStr s
  | _ => none

/-- Subtraction of possibly-NaN JavaScript numbers; NaN propagates. -/
def jsSub : JSNum → JSNum → JSNum
  | some a, some b => some (a - b)
  | _, _ => none

/-- Strict equality `i === pid` between a stored numeric id and the result of
a `parseInt` call that may be NaN (`none`): NaN matches nothing. -/
def jsIdEq (i : ℤ) : Option ℤ → Bool
  | some j => i == j
  | none => false

/-- Models `Array.prototype.find` (part_000 uses it on plain JS arrays):
first element satisfying the predicate, `undefined` becomes `none`. -/
def findJS {α : Type} (p : α → Bool) : List α → Option α
  | [] => none
  | x :: xs => if p x then some x else findJS p xs

/-- Models `Array.prototype.findIndex`: index of the first element satisfying
the predicate; the JS sentinel -1 becomes `none`. -/
def findIndexJS {α : Type} (p : α → Bool) : List α → Option ℕ
  | [] => none
  | x :: xs => if p x then some 0 else (findIndexJS p xs).map (· + 1)

/-- Models `array.splice(i, 1)`: removes the element at index `i`, leaving
the list unchanged when the index is out of range. -/
def spliceRemove {α : Type} : List α → ℕ → List α
  | [], _ => []
  | _ :: xs, 0 => xs
  | x :: xs, n + 1 => x :: spliceRemove xs n

/-- All elements pairwise distinct under the given Boolean equality. -/
def distinctByB {α : Type} (eq : α → α → Bool) : List α → Bool
  | [] => true
  | x :: xs => xs.all (fun y => !(eq x y)) && distinctByB eq xs

/-- Models `str.split(' ')` character-wise: splits at every single space,
keeping empty fragments, so that the result is never the empty list. -/
def splitChars : List Char → List (List Char)
  | [] => [[]]
  | c :: rest =>
    if c = ' ' then [] :: splitChars rest
    else
      match splitChars rest with
      | [] => [[c]]
      | g :: gs => (c :: g) :: gs

/-- Models `authHeader.split(' ')` on a whole string. -/
def jsSplitSpace (s : String) : List String :=
  (splitChars s.data).map (fun l => String.mk l)

/-- Models JS array indexing `a[i]`, `undefined` becoming `none`. -/
def nthJS {α : Type} : List α → ℕ → Option α
  | [], _ => none
  | x :: _, 0 => some x
  | _ :: xs, n + 1 => nthJS xs n

/-- Default admin key of part_000 line 8 (`process.env.ADMIN_KEY` falls back
to this whenever the environment value is absent or empty). -/
def ADMIN_KEY_default : String := "admin123"

/-- Models authenticateAdmin (part_000 lines 53-61):
`token = authHeader && authHeader.split(' ')[1]`, rejected when
`!token || token !== ADMIN_KEY`.  An absent header and an empty header both
short-circuit to a falsy token. -/
def authenticateAdmin (adminKey : String) (authHeader : Option String) : Bool :=
  match authHeader with
  | none => false
  | some h =>
    if h = "" then false
    else
      match nthJS (jsSplitSpace h) 1 with
      | none => false
      | some t => (t != "") && (t == adminKey)

/-- Employee record as stored in the document (part_000 lines 108-119): the
textual fields are stored exactly as they arrived in the request body,
`salary` is stored through `parseFloat`. -/
structure Employee where
  id : ℤ
  employee_code : JSValue
  first_name : JSValue
  last_name : JSValue
  designation : JSValue
  department : JSValue
  email : JSValue
  bank_account : JSValue
  salary : JSNum
  created_at : String
deriving DecidableEq

/-- Payroll record as stored in the document (part_000 lines 164-173). -/
structure Payroll where
  id : ℤ
  employee_id : ℤ
  pay_period_start : JSValue
  pay_period_end : JSValue
  gross_pay : JSNum
  deductions : JSNum
  net_pay : JSNum
  created_at : String
deriving DecidableEq

/-- The persisted aggregate document (the content of data.json). -/
structure Document where
  employees : List Employee
  payrolls : List Payroll
  nextEmployeeId : ℤ
  nextPayrollId : ℤ
deriving DecidableEq

/-- The default empty document (part_000 lines 20-25 and 37). -/
def defaultData : Document :=
  { employees := [], payrolls := [], nextEmployeeId := 1, nextPayrollId := 1 }

/-- Models readData (part_000 lines 31-39).  `raw` is the outcome of
`fs.readFileSync` (`none` when reading throws); `parse` is the outcome of
`JSON.parse` on the file content (`none` when parsing throws, `some` when the
file parses to a document).  Both failures fall into the catch branch, which
returns the default empty document. -/
def readData (raw : Option String) (parse : String → Option Document) : Document :=
  match raw with
  | none => defaultData
  | some s =>
    match parse s with
    | none => defaultData
    | some d => d

/-- Models calculatePayroll (part_000 lines 64-67): `netPay` is
`grossPay - deductions`, with deductions defaulting to 0.  The singleton
object wrapper `{ netPay }` is dropped. -/
def calculatePayroll (grossPay : JSNum) (deductions : JSNum := some 0) : JSNum :=
  jsSub grossPay deductions

/-- The specification's computeNetPay, written from the spec's words for
comparison with the source: `grossPay - deductions` rounded to exactly 2
fractional digits, deductions defaulting to 0. -/
def computeNetPay (grossPay : ℚ) (deductions : ℚ := 0) : ℚ :=
  round2 (grossPay - deductions)

/-- Request body of POST /api/employees; absent fields are `undefined`. -/
structure EmployeeBody where
  employee_code : JSValue := .undefined
  first_name : JSValue := .undefined
  last_name : JSValue := .undefined
  designation : JSValue := .undefined
  department : JSValue := .undefined
  email : JSValue := .undefined
  bank_account : JSValue := .undefined
  salary : JSValue := .undefined
deriving DecidableEq

/-- Request body of POST /api/payrolls; absent fields are `undefined`. -/
structure PayrollBody where
  employee_id : JSValue := .undefined
  pay_period_start : JSValue := .undefined
  pay_period_end : JSValue := .undefined
  gross_pay : JSValue := .undefined
  deductions : JSValue := .undefined
deriving DecidableEq

/-- The destructuring default `deductions = 0` of part_000 line 139, applied
only when the field is absent (undefined). -/
def dedField (b : PayrollBody) : JSValue :=
  if b.deductions = JSValue.undefined then JSValue.num 0 else b.deductions

/-- The presence check of part_000 line 92: every required employee field
must be truthy. -/
def validEmployeeFields (b : EmployeeBody) : Bool :=
  truthy b.employee_code && truthy b.first_name && truthy b.last_name &&
  truthy b.designation && truthy b.department && truthy b.email &&
  truthy b.bank_account && truthy b.salary

/-- The presence check of part_000 line 142: the four required payroll fields
must be truthy (deductions is not required). -/
def validPayrollFields (b : PayrollBody) : Bool :=
  truthy b.employee_id && truthy b.pay_period_start &&
  truthy b.pay_period_end && truthy b.gross_pay

/-- Outcome of POST /api/employees, one constructor per return site of the
handler (part_000 lines 88-129).  `duplicateCode` is the conflict
(duplicate unique key) branch, `missingFields` and `invalidSalary` the
validation branches. -/
inductive CreateEmpResult where
  | unauthorized
  | missingFields
  | invalidSalary
  | duplicateCode
  | saveFailed
  | created (e : Employee)
deriving DecidableEq

/-- HTTP status attached to each return site of POST /api/employees. -/
def CreateEmpResult.status : CreateEmpResult → ℕ
  | .unauthorized => 401
  | .missingFields => 400
  | .invalidSalary => 400
  | .duplicateCode => 400
  | .saveFailed => 500
  | .created _ => 201

/-- Outcome of POST /api/payrolls (part_000 lines 138-183). -/
inductive CreatePayResult where
  | unauthorized
  | missingFields
  | invalidGrossPay
  | invalidDeductions
  | employeeNotFound
  | saveFailed
  | created (p : Payroll)
deriving DecidableEq

/-- HTTP status attached to each return site of POST /api/payrolls. -/
def CreatePayResult.status : CreatePayResult → ℕ
  | .unauthorized => 401
  | .missingFields => 400
  | .invalidGrossPay => 400
  | .invalidDeductions => 400
  | .employeeNotFound => 404
  | .saveFailed => 500
  | .created _ => 201

/-- Outcome of DELETE /api/employees/:id (part_000 lines 218-236). -/
inductive DeleteResult where
  | unauthorized
  | notFound
  | saveFailed
  | deleted
deriving DecidableEq

/-- HTTP status attached to each return site of DELETE /api/employees/:id. -/
def DeleteResult.status : DeleteResult → ℕ
  | .unauthorized => 401
  | .notFound => 404
  | .saveFailed => 500
  | .deleted => 200

/-- The public employee subset embedded in a payslip (part_000 lines
202-211). -/
structure EmployeePublic where
  id : ℤ
  employee_code : JSValue
  first_name : JSValue
  last_name : JSValue
  designation : JSValue
  department : JSValue
  email : JSValue
  bank_account : JSValue
deriving DecidableEq

/-- A payslip: one payroll joined with its employee's public fields. -/
structure Payslip where
  payroll : Payroll
  employee : EmployeePublic
deriving DecidableEq

/-- Outcome of GET /api/payslip/:payroll_id (part_000 lines 186-215). -/
inductive PayslipResult where
  | payrollNotFound
  | employeeNotFound
  | ok (p : Payslip)
deriving DecidableEq

/-- HTTP status attached to each return site of GET /api/payslip. -/
def PayslipResult.status : PayslipResult → ℕ
  | .payrollNotFound => 404
  | .employeeNotFound => 404
  | .ok _ => 200

/-- The new employee built at part_000 lines 108-119. -/
def mkEmployee (doc : Document) (b : EmployeeBody) (now : String) : Employee :=
  { id := doc.nextEmployeeId
    employee_code := b.employee_code
    first_name := b.first_name
    last_name := b.last_name
    designation := b.designation
    department := b.department
    email := b.email
    bank_account := b.bank_account
    salary := parseFloatJS b.salary
    created_at := now }

/-- The document mutation of part_000 lines 121-122: push the employee and
increment the counter. -/
def pushEmployee (doc : Document) (e : Employee) : Document :=
  { doc with employees := doc.employees ++ [e],
             nextEmployeeId := doc.nextEmployeeId + 1 }

/-- Models the POST /api/employees handler (part_000 lines 88-129), auth
middleware included.  `doc` is the persisted document read by `readData`,
`saveOk` the outcome of `writeData`, `now` the `created_at` timestamp;
the second component is the document persisted after the call. -/
def postEmployee (adminKey : String) (authHeader : Option String)
    (b : EmployeeBody) (doc : Document) (now : String) (saveOk : Bool) :
    CreateEmpResult × Document :=
  if authenticateAdmin adminKey authHeader then
    if validEmployeeFields b then
      match toNumber b.salary with
      | none => (.invalidSalary, doc)
      | some q =>
        if q ≤ 0 then (.invalidSalary, doc)
        else
          match findJS (fun e => jsStrictEq e.employee_code b.employee_code)
              doc.employees with
          | some _ => (.duplicateCode, doc)
          | none =>
            if saveOk then
              (.created (mkEmployee doc b now), pushEmployee doc (mkEmployee doc b now))
            else (.saveFailed, doc)
    else (.missingFields, doc)
  else (.unauthorized, doc)

/-- The new payroll built at part_000 lines 164-173; `eid` is
`parseInt(employee_id)`. -/
def mkPayroll (doc : Document) (b : PayrollBody) (eid : ℤ) (now : String) : Payroll :=
  { id := doc.nextPayrollId
    employee_id := eid
    pay_period_start := b.pay_period_start
    pay_period_end := b.pay_period_end
    gross_pay := parseFloatJS b.gross_pay
    deductions := parseFloatJS (dedField b)
    net_pay := (calculatePayroll (parseFloatJS b.gross_pay) (parseFloatJS (dedField b))).map round2
    created_at := now }

/-- The document mutation of part_000 lines 175-176. -/
def pushPayroll (doc : Document) (p : Payroll) : Document :=
  { doc with payrolls := doc.payrolls ++ [p],
             nextPayrollId := doc.nextPayrollId + 1 }

/-- Models the POST /api/payrolls handler (part_000 lines 138-183).  The
employee lookup compares each stored id via `===` against
`parseInt(employee_id)`; in the success branch that parse is known to be a
number, so `getD 0` is never the default. -/
def postPayroll (adminKey : String) (authHeader : Option String)
    (b : PayrollBody) (doc : Document) (now : String) (saveOk : Bool) :
    CreatePayResult × Document :=
  if authenticateAdmin adminKey authHeader then
    if validPayrollFields b then
      match toNumber b.gross_pay with
      | none => (.invalidGrossPay, doc)
      | some g =>
        if g ≤ 0 then (.invalidGrossPay, doc)
        else
          match toNumber (dedField b) with
          | none => (.invalidDeductions, doc)
          | some dq =>
            if dq < 0 then (.invalidDeductions, doc)
            else
              match findJS (fun e => jsIdEq e.id (parseIntJS b.employee_id))
                  doc.employees with
              | none => (.employeeNotFound, doc)
              | some _ =>
                if saveOk then
                  (.created (mkPayroll doc b ((parseIntJS b.employee_id).getD 0) now),
                   pushPayroll doc (mkPayroll doc b ((parseIntJS b.employee_id).getD 0) now))
                else (.saveFailed, doc)
    else (.missingFields, doc)
  else (.unauthorized, doc)

/-- Models the DELETE /api/employees/:id handler (part_000 lines 218-236):
`findIndex` on `parseInt(req.params.id)`, `splice(i, 1)` on the employees,
and a filter dropping every payroll whose `employee_id` strictly equals the
parsed id; both changes are written in one `writeData` call. -/
def deleteEmployee (adminKey : String) (authHeader : Option String)
    (idParam : String) (doc : Document) (saveOk : Bool) :
    DeleteResult × Document :=
  if authenticateAdmin adminKey authHeader then
    match findIndexJS (fun e => jsIdEq e.id (parseIntStr idParam)) doc.employees with
    | none => (.notFound, doc)
    | some i =>
      if saveOk then
        (.deleted,
         { doc with employees := spliceRemove doc.employees i,
                    payrolls := doc.payrolls.filter
                      (fun p => !(jsIdEq p.employee_id (parseIntStr idParam))) })
      else (.saveFailed, doc)
  else (.unauthorized, doc)

/-- Models the GET /api/payslip/:payroll_id handler (part_000 lines 186-215);
the read never writes, so the persisted document is returned unchanged. -/
def getPayslip (payrollIdParam : String) (doc : Document) :
    PayslipResult × Document :=
  match findJS (fun p => jsIdEq p.id (parseIntStr payrollIdParam)) doc.payrolls with
  | none => (.payrollNotFound, doc)
  | some pr =>
    match findJS (fun e => e.id == pr.employee_id) doc.employees with
    | none => (.employeeNotFound, doc)
    | some emp =>
      (.ok { payroll := pr,
             employee := { id := emp.id, employee_code := emp.employee_code,
                           first_name := emp.first_name, last_name := emp.last_name,
                           designation := emp.designation, department := emp.department,
                           email := emp.email, bank_account := emp.bank_account } },
       doc)

/-- Models GET /api/employees (part_000 lines 82-85): a pure read. -/
def getEmployees (doc : Document) : List Employee × Document :=
  (doc.employees, doc)

/-- Models GET /api/payrolls (part_000 lines 132-135): a pure read. -/
def getPayrolls (doc : Document) : List Payroll × Document :=
  (doc.payrolls, doc)

/-- Pairwise distinctness of the stored employee codes under `===`, the
relation the duplicate check of the creation handler uses. -/
def codesOk (doc : Document) : Bool :=
  distinctByB jsStrictEq (doc.employees.map (fun e => e.employee_code))

/-- Pairwise distinctness of the stored employee ids. -/
def idsOk (l : List ℤ) : Bool :=
  distinctByB (fun a b => a == b) l

/-- Fixture: a stored employee with code "E1" (the spec's concrete scenario). -/
def wEmp1 : Employee :=
  { id := 1, employee_code := .str "E1", first_name := .str "Ann",
    last_name := .str "Lee", designation := .str "Eng", department := .str "RD",
    email := .str "a@x.com", bank_account := .str "123", salary := some 5000,
    created_at := "t0" }

/-- Fixture: a second stored employee with code "E2". -/
def wEmp2 : Employee :=
  { wEmp1 with id := 2, employee_code := .str "E2" }

/-- Fixture: a payroll for employee 1. -/
def wPay1 : Payroll :=
  { id := 1, employee_id := 1, pay_period_start := .str "2024-01-01",
    pay_period_end := .str "2024-01-31", gross_pay := some 5000,
    deductions := some 500, net_pay := some 4500, created_at := "t0" }

/-- Fixture: a payroll for employee 2. -/
def wPay2 : Payroll :=
  { wPay1 with id := 2, employee_id := 2 }

/-- Fixture: a payroll whose employee (id 5) is not in the document. -/
def wPayOrphan : Payroll :=
  { wPay1 with id := 1, employee_id := 5 }

/-- Fixture: a fully valid employee-creation body with code "E1". -/
def wEmpBody : EmployeeBody :=
  { employee_code := .str "E1", first_name := .str "Ann", last_name := .str "Lee",
    designation := .str "Eng", department := .str "RD", email := .str "a@x.com",
    bank_account := .str "123", salary := .num 5000 }

/-- Fixture: a valid payroll-creation body naming the absent employee 99. -/
def wPayBodyNoEmp : PayrollBody :=
  { employee_id := .num 99, pay_period_start := .str "2024-01-01",
    pay_period_end := .str "2024-01-31", gross_pay := .num 5000 }

/-- Fixture: a document holding only `wEmp1`. -/
def wDocE1 : Document :=
  { employees := [wEmp1], payrolls := [], nextEmployeeId := 2, nextPayrollId := 1 }

/-- Fixture: a document with two employees and one payroll each. -/
def wDoc2 : Document :=
  { employees := [wEmp1, wEmp2], payrolls := [wPay1, wPay2],
    nextEmployeeId := 3, nextPayrollId := 3 }

/-- Fixture: a document holding one payroll whose employee was deleted. -/
def wDocOrphan : Document :=
  { employees := [], payrolls := [wPayOrphan], nextEmployeeId := 6, nextPayrollId := 2 }

/-- Rebuilding a string from its character data is the identity. -/
theorem string_mk_data (s : String) : String.mk s.data = s := rfl

/-- A string starting with "Bearer " is never empty. -/
theorem bearer_append_ne_empty (t : String) : ("Bearer " ++ t) ≠ "" := by
  intro hc
  have hd : "Bearer ".data ++ t.data = "".data := by
    rw [← String.data_append, hc]
  exact List.noConfusion hd

/-- A space-free character list is split into a single fragment. -/
theorem splitChars_no_space : ∀ (l : List Char), ' ' ∉ l → splitChars l = [l] := by
  intro l
  induction l with
  | nil => intro _; rfl
  | cons c cs ih =>
    intro h
    have hc : ¬ (c = ' ') := fun hcc => h (hcc ▸ List.mem_cons_self c cs)
    have ihc := ih (fun hm => h (List.mem_cons_of_mem c hm))
    simp [splitChars, hc, ihc]

/-- Splitting a list made of a space-free prefix, a space, and a remainder
peels off exactly the prefix. -/
theorem splitChars_prefix :
    ∀ (pre : List Char), ' ' ∉ pre →
      ∀ rest, splitChars (pre ++ ' ' :: rest) = pre :: splitChars rest := by
  intro pre
  induction pre with
  | nil => intro _ rest; simp [splitChars]
  | cons c cs ih =>
    intro h rest
    have hc : ¬ (c = ' ') := fun hcc => h (hcc ▸ List.mem_cons_self c cs)
    have ihc := ih (fun hm => h (List.mem_cons_of_mem c hm)) rest
    simp [splitChars, hc, ihc]

/-- On a well-formed Bearer header the split yields the scheme and the token. -/
theorem jsSplitSpace_bearer (t : String) (h : ' ' ∉ t.data) :
    jsSplitSpace ("Bearer " ++ t) = ["Bearer", t] := by
  have h1 : ("Bearer " ++ t).data = ['B','e','a','r','e','r'] ++ ' ' :: t.data :=
    String.data_append "Bearer " t
  simp only [jsSplitSpace, h1,
    splitChars_prefix ['B','e','a','r','e','r'] (by decide) t.data,
    splitChars_no_space t.data h, List.map_cons, List.map_nil]

/-- The executable floor agrees with Mathlib's floor. -/
theorem ratFloor_eq_floor (q : ℚ) : ratFloor q = ⌊q⌋ := by
  rw [Rat.floor_def]
  exact Int.fdiv_eq_ediv _ (by positivity)

/-- Rounding to hundredths, in floor form. -/
theorem round2_eq (q : ℚ) : round2 q = ((⌊q * 100 + 1 / 2⌋ : ℤ) : ℚ) / 100 := by
  simp only [round2, ratFloor_eq_floor]

/-- Strict equality against a successfully parsed id is plain id equality. -/
theorem jsIdEq_some (i j : ℤ) : jsIdEq i (some j) = (i == j) := rfl

/-- A failed find means no element satisfies the predicate. -/
theorem findJS_none_iff {α : Type} (p : α → Bool) (l : List α) :
    findJS p l = none ↔ ∀ x ∈ l, p x = false := by
  induction l with
  | nil => simp [findJS]
  | cons x xs ih =>
    by_cases h : p x <;> simp [findJS, h, ih]

/-- A member satisfying the predicate gives findIndex a hit. -/
theorem findIndexJS_isSome_of_mem {α : Type} (p : α → Bool) :
    ∀ (l : List α) (x : α), x ∈ l → p x = true → ∃ i, findIndexJS p l = some i := by
  intro l
  induction l with
  | nil => intro x hx; exact absurd hx (List.not_mem_nil x)
  | cons y ys ih =>
    intro x hx hp
    by_cases hy : p y
    · exact ⟨0, by simp [findIndexJS, hy]⟩
    · rcases List.mem_cons.mp hx with h1 | h2
      · exact absurd (h1 ▸ hp) (by simpa using hy)
      · obtain ⟨i, hi⟩ := ih x h2 hp
        exact ⟨i + 1, by simp [findIndexJS, hy, hi]⟩

/-- Removing one element preserves a universally satisfied predicate. -/
theorem all_spliceRemove {α : Type} (p : α → Bool) :
    ∀ (l : List α) (n : ℕ), l.all p = true → (spliceRemove l n).all p = true := by
  intro l
  induction l with
  | nil => intro n h; exact h
  | cons x xs ih =>
    intro n h
    rw [List.all_cons, Bool.and_eq_true] at h
    cases n with
    | zero => exact h.2
    | succ m =>
      rw [spliceRemove, List.all_cons, Bool.and_eq_true]
      exact ⟨h.1, ih m h.2⟩

/-- Removing one element preserves pairwise distinctness. -/
theorem distinctByB_spliceRemove {α : Type} (eq : α → α → Bool) :
    ∀ (l : List α) (n : ℕ),
      distinctByB eq l = true → distinctByB eq (spliceRemove l n) = true := by
  intro l
  induction l with
  | nil => intro n h; exact h
  | cons x xs ih =>
    intro n h
    rw [distinctByB, Bool.and_eq_true] at h
    cases n with
    | zero => exact h.2
    | succ m =>
      rw [spliceRemove, distinctByB, Bool.and_eq_true]
      exact ⟨all_spliceRemove _ xs m h.1, ih m h.2⟩

/-- Mapping commutes with single-element removal. -/
theorem map_spliceRemove {α β : Type} (f : α → β) :
    ∀ (l : List α) (n : ℕ), (spliceRemove l n).map f = spliceRemove (l.map f) n := by
  intro l
  induction l with
  | nil => intro n; rfl
  | cons x xs ih =>
    intro n
    cases n with
    | zero => rfl
    | succ m => simp [spliceRemove, ih m]

/-- Appending a fresh element preserves pairwise distinctness. -/
theorem distinctByB_append_singleton {α : Type} (eq : α → α → Bool) (a : α) :
    ∀ (l : List α), distinctByB eq l = true → (∀ x ∈ l, eq x a = false) →
      distinctByB eq (l ++ [a]) = true := by
  intro l
  induction l with
  | nil => intro _ _; simp [distinctByB]
  | cons x xs ih =>
    intro h hall
    rw [distinctByB, Bool.and_eq_true] at h
    rw [List.cons_append, distinctByB, Bool.and_eq_true]
    refine ⟨?_, ih h.2 (fun y hy => hall y (List.mem_cons_of_mem x hy))⟩
    rw [List.all_append, Bool.and_eq_true]
    refine ⟨h.1, ?_⟩
    simp [hall x (List.mem_cons_self x xs)]

/-- When the stored ids are pairwise distinct, splicing out the first id
match is the same as filtering the id out. -/
theorem spliceRemove_findIndexJS_filter (X : ℤ) :
    ∀ (l : List Employee), idsOk (l.map (fun e => e.id)) = true →
      ∀ i, findIndexJS (fun e => e.id == X) l = some i →
        spliceRemove l i = l.filter (fun e => !(e.id == X)) := by
  intro l
  induction l with
  | nil => intro _ i hi; exact Option.noConfusion hi
  | cons x xs ih =>
    intro hd i hi
    rw [idsOk, List.map_cons, distinctByB, Bool.and_eq_true] at hd
    by_cases hx : x.id == X
    · rw [findIndexJS, if_pos hx] at hi
      obtain rfl : (0 : ℕ) = i := Option.some.inj hi
      have hXid : x.id = X := by simpa using hx
      have hall : ∀ e ∈ xs, (!(e.id == X)) = true := by
        intro e he
        have h1 := (List.all_eq_true.mp hd.1) e.id (List.mem_map.mpr ⟨e, he, rfl⟩)
        simp only [Bool.not_eq_true', beq_eq_false_iff_ne] at h1
        have h3 : e.id ≠ X := fun hEx => h1 (by rw [hEx]; exact hXid)
        simp [h3]
      rw [spliceRemove, List.filter_cons, if_neg (by simp [hx])]
      exact (List.filter_eq_self.mpr hall).symm
    · rw [findIndexJS, if_neg (by simpa using hx)] at hi
      obtain ⟨j, hj, rfl⟩ := Option.map_eq_some'.mp hi
      rw [spliceRemove, List.filter_cons, if_pos (by simp [hx])]
      rw [ih hd.2 j hj]

/-- The employee list is untouched by every branch of POST /api/payrolls. -/
theorem postPayroll_employees (k : String) (h : Option String) (b : PayrollBody)
    (doc : Document) (now : String) (ok : Bool) :
    (postPayroll k h b doc now ok).2.employees = doc.employees := by
  unfold postPayroll
  repeat' split
  all_goals rfl

/-- The persisted document is untouched by every branch of the payslip read. -/
theorem getPayslip_snd (s : String) (doc : Document) :
    (getPayslip s doc).2 = doc := by
  unfold getPayslip
  repeat' split
  all_goals rfl

/-- When no employee matches the parsed employee_id, no branch of
POST /api/payrolls changes the persisted document. -/
theorem postPayroll_no_emp_snd (k : String) (h : Option String) (b : PayrollBody)
    (doc : Document) (now : String) (ok : Bool)
    (hfind : findJS (fun e => jsIdEq e.id (parseIntJS b.employee_id)) doc.employees = none) :
    (postPayroll k h b doc now ok).2 = doc := by
  unfold postPayroll
  repeat' split
  all_goals first
    | rfl
    | simp_all
/-- C1: for every valid employee creation (all required fields present, salary
a positive number, employee_code not already in use, save succeeding), the id
of the returned employee equals the document's nextEmployeeId before the call,
and after the call nextEmployeeId is exactly one greater; the new employee is
appended and the payrolls are untouched. -/
theorem C1_create_assigns_next_id (key : String) (h : Option String)
    (b : EmployeeBody) (doc : Document) (now : String) (q : ℚ)
    (hauth : authenticateAdmin key h = true)
    (hfields : validEmployeeFields b = true)
    (hsal : b.salary = JSValue.num q) (hq : 0 < q)
    (hdup : findJS (fun e => jsStrictEq e.employee_code b.employee_code)
      doc.employees = none) :
    ∃ e d', postEmployee key h b doc now true = (CreateEmpResult.created e, d') ∧
      e.id = doc.nextEmployeeId ∧
      d'.nextEmployeeId = doc.nextEmployeeId + 1 ∧
      d'.employees = doc.employees ++ [e] ∧
      d'.payrolls = doc.payrolls := by
  refine ⟨mkEmployee doc b now, pushEmployee doc (mkEmployee doc b now),
    ?_, rfl, rfl, rfl, rfl⟩
  unfold postEmployee
  rw [if_pos hauth, if_pos hfields]
  simp only [hsal, toNumber]
  rw [if_neg (not_le.mpr hq)]
  simp only [hdup, if_pos]

/-- Witness for C1 at the spec's concrete scenario. -/
theorem C1_witness :
    (authenticateAdmin "admin123" (some "Bearer admin123") = true ∧
     validEmployeeFields wEmpBody = true ∧
     wEmpBody.salary = JSValue.num 5000 ∧ (0 : ℚ) < 5000 ∧
     findJS (fun e => jsStrictEq e.employee_code wEmpBody.employee_code)
       defaultData.employees = none) ∧
    (∃ e d',
      postEmployee "admin123" (some "Bearer admin123") wEmpBody defaultData "t1" true =
        (CreateEmpResult.created e, d') ∧
      e.id = defaultData.nextEmployeeId ∧
      d'.nextEmployeeId = defaultData.nextEmployeeId + 1 ∧
      d'.employees = defaultData.employees ++ [e] ∧
      d'.payrolls = defaultData.payrolls) :=
  ⟨⟨by decide, by decide, rfl, by decide, by decide⟩,
   C1_create_assigns_next_id "admin123" (some "Bearer admin123") wEmpBody defaultData
     "t1" 5000 (by decide) (by decide) rfl (by decide) (by decide)⟩

/-- C2 counterexample: with every other field valid, creating an employee
whose employee_code already exists responds with HTTP 400 (the handler's
line-105 branch), not 409 as the claim states; the document is unchanged. -/
theorem C2_counterexample :
    (postEmployee "admin123" (some "Bearer admin123") wEmpBody wDocE1 "t1" true).1 =
      CreateEmpResult.duplicateCode ∧
    (postEmployee "admin123" (some "Bearer admin123") wEmpBody wDocE1 "t1" true).2 = wDocE1 ∧
    CreateEmpResult.status
      (postEmployee "admin123" (some "Bearer admin123") wEmpBody wDocE1 "t1" true).1 = 400 ∧
    ¬ CreateEmpResult.status
      (postEmployee "admin123" (some "Bearer admin123") wEmpBody wDocE1 "t1" true).1 = 409 := by
  decide

/-- C2 (amended): on the authorized path, a request whose employee_code is
strictly equal to a stored employee's code never mutates the document and is
always answered with HTTP 400; when the remaining fields pass validation the
failing branch is precisely the duplicate-code (conflict) one. -/
theorem C2_duplicate_code_yields_400 (key : String) (h : Option String)
    (b : EmployeeBody) (doc : Document) (now : String) (ok : Bool) (e0 : Employee)
    (hauth : authenticateAdmin key h = true)
    (hdup : findJS (fun e => jsStrictEq e.employee_code b.employee_code)
      doc.employees = some e0) :
    (postEmployee key h b doc now ok).2 = doc ∧
    CreateEmpResult.status (postEmployee key h b doc now ok).1 = 400 ∧
    (validEmployeeFields b = true →
      ∀ q, toNumber b.salary = some q → 0 < q →
        (postEmployee key h b doc now ok).1 = CreateEmpResult.duplicateCode) := by
  refine ⟨?_, ?_, ?_⟩
  · unfold postEmployee
    repeat' split
    all_goals first | rfl | simp_all
  · unfold postEmployee
    repeat' split
    all_goals first | rfl | simp_all
  · intro hvf q hq hqpos
    unfold postEmployee
    rw [if_pos hauth, if_pos hvf]
    simp only [hq]
    rw [if_neg (not_le.mpr hqpos)]
    simp only [hdup]

/-- Witness for the amended C2 at the concrete duplicate-code scenario. -/
theorem C2_witness :
    (authenticateAdmin "admin123" (some "Bearer admin123") = true ∧
     findJS (fun e => jsStrictEq e.employee_code wEmpBody.employee_code)
       wDocE1.employees = some wEmp1) ∧
    ((postEmployee "admin123" (some "Bearer admin123") wEmpBody wDocE1 "t1" true).2 = wDocE1 ∧
     CreateEmpResult.status
       (postEmployee "admin123" (some "Bearer admin123") wEmpBody wDocE1 "t1" true).1 = 400 ∧
     (validEmployeeFields wEmpBody = true →
       ∀ q, toNumber wEmpBody.salary = some q → 0 < q →
         (postEmployee "admin123" (some "Bearer admin123") wEmpBody wDocE1 "t1" true).1 =
           CreateEmpResult.duplicateCode)) :=
  ⟨⟨by decide, by decide⟩,
   C2_duplicate_code_yields_400 "admin123" (some "Bearer admin123") wEmpBody wDocE1
     "t1" true wEmp1 (by decide) (by decide)⟩
/-- C3: deleting an employee with id X (present, ids pairwise distinct)
removes exactly that employee and exactly the payrolls referencing X; all
other payrolls survive in their relative order (both lists are filters of the
originals), and both removals land in the same persisted document. -/
theorem C3_delete_cascades (key : String) (h : Option String) (s : String)
    (X : ℤ) (doc : Document)
    (hauth : authenticateAdmin key h = true)
    (hs : parseIntStr s = some X)
    (hin : ∃ e, e ∈ doc.employees ∧ e.id = X)
    (hids : idsOk (doc.employees.map (fun e => e.id)) = true) :
    ∃ d', deleteEmployee key h s doc true = (DeleteResult.deleted, d') ∧
      d'.employees = doc.employees.filter (fun e => !(e.id == X)) ∧
      d'.payrolls = doc.payrolls.filter (fun p => !(p.employee_id == X)) ∧
      d'.nextEmployeeId = doc.nextEmployeeId ∧
      d'.nextPayrollId = doc.nextPayrollId := by
  obtain ⟨e, he, heid⟩ := hin
  have hp : (fun e => jsIdEq e.id (parseIntStr s)) e = true := by
    simp [hs, jsIdEq_some, heid]
  obtain ⟨i, hi⟩ := findIndexJS_isSome_of_mem (fun e => jsIdEq e.id (parseIntStr s))
    doc.employees e he hp
  have hi' : findIndexJS (fun e => e.id == X) doc.employees = some i := by
    simpa only [hs, jsIdEq_some] using hi
  refine ⟨Document.mk (spliceRemove doc.employees i)
      (doc.payrolls.filter (fun p => !(jsIdEq p.employee_id (parseIntStr s))))
      doc.nextEmployeeId doc.nextPayrollId, ?_, ?_, ?_, rfl, rfl⟩
  · unfold deleteEmployee
    rw [if_pos hauth]
    simp only [hi]
    rfl
  · exact spliceRemove_findIndexJS_filter X doc.employees hids i hi'
  · simp only [hs, jsIdEq_some]

/-- Witness for C3: deleting employee 1 from the two-employee document. -/
theorem C3_witness :
    (authenticateAdmin "admin123" (some "Bearer admin123") = true ∧
     parseIntStr "1" = some 1 ∧
     (∃ e, e ∈ wDoc2.employees ∧ e.id = 1) ∧
     idsOk (wDoc2.employees.map (fun e => e.id)) = true) ∧
    (∃ d', deleteEmployee "admin123" (some "Bearer admin123") "1" wDoc2 true =
        (DeleteResult.deleted, d') ∧
      d'.employees = wDoc2.employees.filter (fun e => !(e.id == 1)) ∧
      d'.payrolls = wDoc2.payrolls.filter (fun p => !(p.employee_id == 1)) ∧
      d'.nextEmployeeId = wDoc2.nextEmployeeId ∧
      d'.nextPayrollId = wDoc2.nextPayrollId) :=
  ⟨⟨by decide, by decide, ⟨wEmp1, by decide, by decide⟩, by decide⟩,
   C3_delete_cascades "admin123" (some "Bearer admin123") "1" 1 wDoc2
     (by decide) (by decide) ⟨wEmp1, by decide, by decide⟩ (by decide)⟩

/-- C4: a payroll creation whose employee_id matches no stored employee never
changes the persisted document (payroll list and counter keep their pre-call
values), and on the validated path it fails precisely with the not-found
branch, mapped to HTTP 404. -/
theorem C4_payroll_missing_employee_404 (key : String) (h : Option String)
    (b : PayrollBody) (doc : Document) (now : String) (ok : Bool)
    (hauth : authenticateAdmin key h = true)
    (hfind : findJS (fun e => jsIdEq e.id (parseIntJS b.employee_id))
      doc.employees = none) :
    (postPayroll key h b doc now ok).2 = doc ∧
    (postPayroll key h b doc now ok).2.payrolls = doc.payrolls ∧
    (postPayroll key h b doc now ok).2.nextPayrollId = doc.nextPayrollId ∧
    (validPayrollFields b = true →
      ∀ g, toNumber b.gross_pay = some g → 0 < g →
        ∀ dq, toNumber (dedField b) = some dq → 0 ≤ dq →
          (postPayroll key h b doc now ok).1 = CreatePayResult.employeeNotFound ∧
          CreatePayResult.status (postPayroll key h b doc now ok).1 = 404) := by
  have h2 := postPayroll_no_emp_snd key h b doc now ok hfind
  refine ⟨h2, by rw [h2], by rw [h2], ?_⟩
  intro hvf g hg hgpos dq hdq hdqnn
  have h1 : (postPayroll key h b doc now ok).1 = CreatePayResult.employeeNotFound := by
    unfold postPayroll
    rw [if_pos hauth, if_pos hvf]
    simp only [hg]
    rw [if_neg (not_le.mpr hgpos)]
    simp only [hdq]
    rw [if_neg (not_lt.mpr hdqnn)]
    simp only [hfind]
  exact ⟨h1, by rw [h1]; rfl⟩

/-- Witness for C4: creating a payroll for the absent employee 99. -/
theorem C4_witness :
    (authenticateAdmin "admin123" (some "Bearer admin123") = true ∧
     findJS (fun e => jsIdEq e.id (parseIntJS wPayBodyNoEmp.employee_id))
       wDocE1.employees = none) ∧
    ((postPayroll "admin123" (some "Bearer admin123") wPayBodyNoEmp wDocE1 "t1" true).2 =
       wDocE1 ∧
     (postPayroll "admin123" (some "Bearer admin123") wPayBodyNoEmp wDocE1 "t1" true).2.payrolls =
       wDocE1.payrolls ∧
     (postPayroll "admin123" (some "Bearer admin123") wPayBodyNoEmp wDocE1 "t1" true).2.nextPayrollId =
       wDocE1.nextPayrollId ∧
     (validPayrollFields wPayBodyNoEmp = true →
       ∀ g, toNumber wPayBodyNoEmp.gross_pay = some g → 0 < g →
         ∀ dq, toNumber (dedField wPayBodyNoEmp) = some dq → 0 ≤ dq →
           (postPayroll "admin123" (some "Bearer admin123") wPayBodyNoEmp wDocE1 "t1" true).1 =
             CreatePayResult.employeeNotFound ∧
           CreatePayResult.status
             (postPayroll "admin123" (some "Bearer admin123") wPayBodyNoEmp wDocE1 "t1" true).1 =
             404)) :=
  ⟨⟨by decide, by decide⟩,
   C4_payroll_missing_employee_404 "admin123" (some "Bearer admin123") wPayBodyNoEmp
     wDocE1 "t1" true (by decide) (by decide)⟩

/-- C5: pairwise distinctness of employee_code (under the strict equality the
duplicate check itself uses) is preserved by every operation: both creation
handlers, the cascading delete, and all the read endpoints. -/
theorem C5_code_uniqueness_preserved (doc : Document) (hd : codesOk doc = true) :
    (∀ key h b now ok, codesOk (postEmployee key h b doc now ok).2 = true) ∧
    (∀ key h s ok, codesOk (deleteEmployee key h s doc ok).2 = true) ∧
    (∀ key h b now ok, codesOk (postPayroll key h b doc now ok).2 = true) ∧
    (∀ s, codesOk (getPayslip s doc).2 = true) ∧
    codesOk (getEmployees doc).2 = true ∧
    codesOk (getPayrolls doc).2 = true := by
  refine ⟨?_, ?_, ?_, ?_, hd, hd⟩
  · intro key h b now ok
    unfold postEmployee
    repeat' split
    all_goals try exact hd
    rename_i hfind hok
    show distinctByB jsStrictEq
      ((doc.employees ++ [mkEmployee doc b now]).map (fun e => e.employee_code)) = true
    rw [List.map_append]
    refine distinctByB_append_singleton _ _ _ hd ?_
    intro c hc
    obtain ⟨e', he', rfl⟩ := List.mem_map.mp hc
    exact (findJS_none_iff _ _).mp hfind e' he'
  · intro key h s ok
    unfold deleteEmployee
    repeat' split
    all_goals try exact hd
    rename_i i hfound hok
    show distinctByB jsStrictEq
      ((spliceRemove doc.employees i).map (fun e => e.employee_code)) = true
    rw [map_spliceRemove]
    exact distinctByB_spliceRemove _ _ _ hd
  · intro key h b now ok
    show distinctByB jsStrictEq
      ((postPayroll key h b doc now ok).2.employees.map (fun e => e.employee_code)) = true
    rw [postPayroll_employees]
    exact hd
  · intro s
    show codesOk (getPayslip s doc).2 = true
    rw [getPayslip_snd]
    exact hd

/-- Witness for C5 on the two-employee document. -/
theorem C5_witness :
    codesOk wDoc2 = true ∧
    ((∀ key h b now ok, codesOk (postEmployee key h b wDoc2 now ok).2 = true) ∧
     (∀ key h s ok, codesOk (deleteEmployee key h s wDoc2 ok).2 = true) ∧
     (∀ key h b now ok, codesOk (postPayroll key h b wDoc2 now ok).2 = true) ∧
     (∀ s, codesOk (getPayslip s wDoc2).2 = true) ∧
     codesOk (getEmployees wDoc2).2 = true ∧
     codesOk (getPayrolls wDoc2).2 = true) :=
  ⟨by decide, C5_code_uniqueness_preserved wDoc2 (by decide)⟩
/-- C6: the net pay the payroll handler stores — `calculatePayroll` followed
by the handler's rounding `parseFloat(netPay.toFixed(2))` — equals the spec's
computeNetPay: grossPay minus deductions rounded to exactly 2 fractional
digits, deductions defaulting to 0; in particular 1000 and 150 give 850.00,
and 1000 alone gives 1000.00. -/
theorem C6_computeNetPay_correct :
    (∀ g d : ℚ,
      (calculatePayroll (some g) (some d)).map round2 = some (computeNetPay g d)) ∧
    (∀ g : ℚ, (calculatePayroll (some g)).map round2 = some (computeNetPay g)) ∧
    (∀ g d : ℚ, ∃ k : ℤ, computeNetPay g d = (k : ℚ) / 100) ∧
    computeNetPay 1000 150 = 850 ∧
    computeNetPay 1000 = 1000 := by
  refine ⟨fun g d => rfl, fun g => rfl,
    fun g d => ⟨ratFloor ((g - d) * 100 + 1 / 2), rfl⟩, ?_, ?_⟩
  · show round2 (1000 - 150) = 850
    rw [round2_eq]
    norm_num
  · show round2 (1000 - 0) = 1000
    rw [round2_eq]
    norm_num

/-- C7: fetching the payslip of a payroll whose employee is gone (the first
payroll matching the requested id references an id no stored employee has)
fails with the not-found branch, maps to HTTP 404, returns no payslip, and
does not change the persisted document. -/
theorem C7_payslip_orphan_404 (s : String) (doc : Document) (pr : Payroll)
    (hp : findJS (fun p => jsIdEq p.id (parseIntStr s)) doc.payrolls = some pr)
    (he : findJS (fun e => e.id == pr.employee_id) doc.employees = none) :
    getPayslip s doc = (PayslipResult.employeeNotFound, doc) ∧
    PayslipResult.status (getPayslip s doc).1 = 404 ∧
    ∀ ps, (getPayslip s doc).1 ≠ PayslipResult.ok ps := by
  have h1 : getPayslip s doc = (PayslipResult.employeeNotFound, doc) := by
    unfold getPayslip
    simp only [hp, he]
  refine ⟨h1, by rw [h1]; rfl, fun ps hcontra => ?_⟩
  rw [h1] at hcontra
  exact PayslipResult.noConfusion hcontra

/-- Witness for C7: the orphaned payroll in `wDocOrphan`. -/
theorem C7_witness :
    (findJS (fun p => jsIdEq p.id (parseIntStr "1")) wDocOrphan.payrolls =
       some wPayOrphan ∧
     findJS (fun e => e.id == wPayOrphan.employee_id) wDocOrphan.employees = none) ∧
    (getPayslip "1" wDocOrphan = (PayslipResult.employeeNotFound, wDocOrphan) ∧
     PayslipResult.status (getPayslip "1" wDocOrphan).1 = 404 ∧
     ∀ ps, (getPayslip "1" wDocOrphan).1 ≠ PayslipResult.ok ps) :=
  ⟨⟨by decide, by decide⟩,
   C7_payslip_orphan_404 "1" wDocOrphan wPayOrphan (by decide) (by decide)⟩

/-- C8: with a non-empty configured secret, a Bearer request is authorized
exactly when its token is string-equal to the secret; an absent header is
rejected; and on all three protected routes a failed check answers 401 with
the document untouched, before any validation or lookup can run. -/
theorem C8_auth_gate (key : String) (hk : key ≠ "") :
    (∀ t : String, ' ' ∉ t.data →
        (authenticateAdmin key (some ("Bearer " ++ t)) = true ↔ t = key)) ∧
    authenticateAdmin key none = false ∧
    (∀ h b doc now ok, authenticateAdmin key h = false →
        postEmployee key h b doc now ok = (CreateEmpResult.unauthorized, doc) ∧
        CreateEmpResult.status (postEmployee key h b doc now ok).1 = 401) ∧
    (∀ h b doc now ok, authenticateAdmin key h = false →
        postPayroll key h b doc now ok = (CreatePayResult.unauthorized, doc) ∧
        CreatePayResult.status (postPayroll key h b doc now ok).1 = 401) ∧
    (∀ h s doc ok, authenticateAdmin key h = false →
        deleteEmployee key h s doc ok = (DeleteResult.unauthorized, doc) ∧
        DeleteResult.status (deleteEmployee key h s doc ok).1 = 401) := by
  refine ⟨?_, rfl, ?_, ?_, ?_⟩
  · intro t ht
    have hEq : authenticateAdmin key (some ("Bearer " ++ t)) =
        ((t != "") && (t == key)) := by
      simp only [authenticateAdmin]
      rw [if_neg (bearer_append_ne_empty t), jsSplitSpace_bearer t ht]
      all_goals rfl
    rw [hEq]
    simp only [Bool.and_eq_true, bne_iff_ne, ne_eq, beq_iff_eq]
    exact ⟨fun hx => hx.2, fun hx => by subst hx; exact ⟨hk, rfl⟩⟩
  · intro h b doc now ok hfalse
    have hres : postEmployee key h b doc now ok = (CreateEmpResult.unauthorized, doc) := by
      unfold postEmployee
      rw [hfalse, if_neg Bool.false_ne_true]
    exact ⟨hres, by rw [hres]; rfl⟩
  · intro h b doc now ok hfalse
    have hres : postPayroll key h b doc now ok = (CreatePayResult.unauthorized, doc) := by
      unfold postPayroll
      rw [hfalse, if_neg Bool.false_ne_true]
    exact ⟨hres, by rw [hres]; rfl⟩
  · intro h s doc ok hfalse
    have hres : deleteEmployee key h s doc ok = (DeleteResult.unauthorized, doc) := by
      unfold deleteEmployee
      rw [hfalse, if_neg Bool.false_ne_true]
    exact ⟨hres, by rw [hres]; rfl⟩

/-- Witness for C8 at the default admin key. -/
theorem C8_witness :
    ADMIN_KEY_default ≠ "" ∧
    ((∀ t : String, ' ' ∉ t.data →
        (authenticateAdmin ADMIN_KEY_default (some ("Bearer " ++ t)) = true ↔
          t = ADMIN_KEY_default)) ∧
     authenticateAdmin ADMIN_KEY_default none = false ∧
     (∀ h b doc now ok, authenticateAdmin ADMIN_KEY_default h = false →
        postEmployee ADMIN_KEY_default h b doc now ok = (CreateEmpResult.unauthorized, doc) ∧
        CreateEmpResult.status (postEmployee ADMIN_KEY_default h b doc now ok).1 = 401) ∧
     (∀ h b doc now ok, authenticateAdmin ADMIN_KEY_default h = false →
        postPayroll ADMIN_KEY_default h b doc now ok = (CreatePayResult.unauthorized, doc) ∧
        CreatePayResult.status (postPayroll ADMIN_KEY_default h b doc now ok).1 = 401) ∧
     (∀ h s doc ok, authenticateAdmin ADMIN_KEY_default h = false →
        deleteEmployee ADMIN_KEY_default h s doc ok = (DeleteResult.unauthorized, doc) ∧
        DeleteResult.status (deleteEmployee ADMIN_KEY_default h s doc ok).1 = 401)) :=
  ⟨by decide, C8_auth_gate ADMIN_KEY_default (by decide)⟩

/-- C9: whenever reading the backing file or parsing its content fails,
readData returns the structurally valid empty default document: empty
employee and payroll lists with both counters equal to 1. -/
theorem C9_readData_default :
    (∀ parse : String → Option Document, readData none parse = defaultData) ∧
    (∀ (parse : String → Option Document) (s : String),
        parse s = none → readData (some s) parse = defaultData) ∧
    defaultData.employees = [] ∧ defaultData.payrolls = [] ∧
    defaultData.nextEmployeeId = 1 ∧ defaultData.nextPayrollId = 1 := by
  refine ⟨fun parse => rfl, ?_, rfl, rfl, rfl, rfl⟩
  intro parse s hps
  unfold readData
  simp only [hps]

/-- Witness for C9: a file whose content fails to parse. -/
theorem C9_witness :
    ((fun _ : String => (none : Option Document)) "corrupt" = none) ∧
    readData none (fun _ => none) = defaultData ∧
    readData (some "corrupt") (fun _ => none) = defaultData :=
  ⟨rfl, C9_readData_default.1 (fun _ => none),
   C9_readData_default.2.1 (fun _ => none) "corrupt" rfl⟩

/-- C10: the presence checks are JavaScript truthiness checks, so a present
but falsy field (0, empty string, null, false) is treated as absent: an
employee body whose salary is falsy (in particular 0) is rejected by the
missing-fields branch with HTTP 400, and a payroll body with employee_id 0 is
likewise answered 400 (missing field), not 404 (employee not found). -/
theorem C10_falsy_fields_rejected (key : String) (h : Option String)
    (hauth : authenticateAdmin key h = true) :
    (truthy (JSValue.num 0) = false ∧ truthy (JSValue.str "") = false ∧
     truthy JSValue.null = false ∧ truthy (JSValue.boolean false) = false) ∧
    (∀ b doc now ok, truthy b.salary = false →
        postEmployee key h b doc now ok = (CreateEmpResult.missingFields, doc) ∧
        CreateEmpResult.status (postEmployee key h b doc now ok).1 = 400) ∧
    (∀ b doc now ok, b.employee_id = JSValue.num 0 →
        postPayroll key h b doc now ok = (CreatePayResult.missingFields, doc) ∧
        CreatePayResult.status (postPayroll key h b doc now ok).1 = 400 ∧
        CreatePayResult.status CreatePayResult.employeeNotFound = 404) := by
  refine ⟨⟨by decide, by decide, rfl, rfl⟩, ?_, ?_⟩
  · intro b doc now ok hsal
    have hvf : validEmployeeFields b = false := by
      unfold validEmployeeFields
      rw [hsal]
      simp
    have hres : postEmployee key h b doc now ok = (CreateEmpResult.missingFields, doc) := by
      unfold postEmployee
      rw [if_pos hauth, if_neg (by simp [hvf])]
    exact ⟨hres, by rw [hres]; rfl⟩
  · intro b doc now ok hid
    have hvf : validPayrollFields b = false := by
      unfold validPayrollFields
      rw [hid]
      simp [truthy]
    have hres : postPayroll key h b doc now ok = (CreatePayResult.missingFields, doc) := by
      unfold postPayroll
      rw [if_pos hauth, if_neg (by simp [hvf])]
    exact ⟨hres, by rw [hres]; rfl, rfl⟩

/-- Witness for C10 at the default admin key. -/
theorem C10_witness :
    authenticateAdmin "admin123" (some "Bearer admin123") = true ∧
    ((truthy (JSValue.num 0) = false ∧ truthy (JSValue.str "") = false ∧
      truthy JSValue.null = false ∧ truthy (JSValue.boolean false) = false) ∧
     (∀ b doc now ok, truthy b.salary = false →
        postEmployee "admin123" (some "Bearer admin123") b doc now ok =
          (CreateEmpResult.missingFields, doc) ∧
        CreateEmpResult.status
          (postEmployee "admin123" (some "Bearer admin123") b doc now ok).1 = 400) ∧
     (∀ b doc now ok, b.employee_id = JSValue.num 0 →
        postPayroll "admin123" (some "Bearer admin123") b doc now ok =
          (CreatePayResult.missingFields, doc) ∧
        CreatePayResult.status
          (postPayroll "admin123" (some "Bearer admin123") b doc now ok).1 = 400 ∧
        CreatePayResult.status CreatePayResult.employeeNotFound = 404)) :=
  ⟨by decide, C10_falsy_fields_rejected "admin123" (some "Bearer admin123") (by decide)⟩
